import Mathlib

/-!
Shallow embedding of the approval-workflow engine of the expense management
backend (`backend/app/services/approval_service.py`, together with the
`PUT /approvals/{id}` endpoint of `backend/app/api/approvals.py` and the
enums of `backend/app/schemas.py` / `backend/app/models.py`).

Modelling conventions:
* UUIDs are modelled as `Nat` identifiers, datetimes as `Int` epoch seconds.
* SQLAlchemy queries are modelled as pure functions over explicit lists of
  rows; the session used by `create_approval_workflow` is modelled as an
  explicit committed/staged pair, because the nested notification service
  commits the shared session mid-loop.
* Python float arithmetic in the 60% quorum and in the statistics average is
  modelled by exact rational arithmetic (`ℚ`).
-/

namespace ExpenseApproval

/-- `ApprovalStatus` enum from `models.py`. -/
inductive ApprovalStatus
  | pending
  | approved
  | rejected
deriving DecidableEq, Repr

/-- `ApprovalType` enum from `models.py`. -/
inductive ApprovalType
  | compulsory
  | necessary
deriving DecidableEq, Repr

/-- `ExpenseStatus` enum from `models.py`. -/
inductive ExpenseStatus
  | draft
  | pending
  | approved
  | rejected
deriving DecidableEq, Repr

/-- The fields of the `User` entity used by the approval service. -/
structure User where
  id : Nat
  company_id : Nat
  is_active : Bool
deriving DecidableEq, Repr

/-- The fields of the `ApprovalRule` entity used by the approval service.
`category_id` is nullable in the schema, hence `Option Nat`. -/
structure ApprovalRule where
  id : Nat
  company_id : Nat
  category_id : Option Nat
  user_id : Nat
  approval_type : ApprovalType
  order_index : Int
  is_active : Bool
deriving DecidableEq, Repr

/-- The fields of the `Approval` entity used by the approval service.
`approved_at` is the decided-at timestamp, set only when a decision is
recorded; `created_at` comes from `TimestampMixin`. -/
structure Approval where
  id : Nat
  expense_id : Nat
  approver_id : Nat
  status : ApprovalStatus
  comments : Option String
  approved_at : Option Int
  created_at : Int
deriving DecidableEq, Repr

/-- The fields of the `Expense` entity used by the approval service. -/
structure Expense where
  id : Nat
  company_id : Nat
  category_id : Nat
  user_id : Nat
  status : ExpenseStatus
deriving DecidableEq, Repr

/-! ## Status aggregation (`_calculate_expense_status`) -/

/-- The rule query of `_calculate_expense_status`: rules whose `category_id`
equals the expense's category and which are active (lines 230–235; note the
query does not filter on `company_id`). -/
def activeRulesFor (rules : List ApprovalRule) (category_id : Nat) : List ApprovalRule :=
  rules.filter (fun r => decide (r.category_id = some category_id) && r.is_active)

/-- `next((r for r in rules if r.user_id == approval.approver_id), None)`. -/
def ruleFor (rules : List ApprovalRule) (a : Approval) : Option ApprovalRule :=
  rules.find? (fun r => decide (r.user_id = a.approver_id))

/-- Whether the first matching rule for the approval has the given type. -/
def matchesType (rules : List ApprovalRule) (t : ApprovalType) (a : Approval) : Bool :=
  match ruleFor rules a with
  | some r => decide (r.approval_type = t)
  | none => false

/-- The `compulsory_approvals` group built by the partition loop. -/
def compulsoryOf (approvals : List Approval) (rules : List ApprovalRule) : List Approval :=
  approvals.filter (matchesType rules ApprovalType.compulsory)

/-- The `necessary_approvals` group built by the partition loop. -/
def necessaryOf (approvals : List Approval) (rules : List ApprovalRule) : List Approval :=
  approvals.filter (matchesType rules ApprovalType.necessary)

/-- The first loop over `compulsory_approvals` (lines 250–255): return
`rejected` on the first rejected approval, `pending` on the first pending
approval, examining the approvals in list order. -/
def compulsoryGate : List Approval → Option ExpenseStatus
  | [] => none
  | a :: rest =>
    if a.status = ApprovalStatus.rejected then some ExpenseStatus.rejected
    else if a.status = ApprovalStatus.pending then some ExpenseStatus.pending
    else compulsoryGate rest

/-- `sum(1 for a in l if a.status == s)`. -/
def countStatus (l : List Approval) (s : ApprovalStatus) : Nat :=
  (l.filter (fun a => decide (a.status = s))).length

/-- `(necessary_approved / total_necessary) * 100 if total_necessary > 0 else 0`,
with Python float division modelled exactly in `ℚ`. -/
def approvalPercentage (approved total : Nat) : ℚ :=
  if total > 0 then (approved : ℚ) / (total : ℚ) * 100 else 0

/-- The 60% threshold test `approval_percentage < 60` of line 272. -/
def percentageLt60 (approved total : Nat) : Prop :=
  approvalPercentage approved total < 60

/-- The threshold test is decidable by integer arithmetic (the kernel cannot
evaluate `Rat` division directly). -/
instance (a t : Nat) : Decidable (percentageLt60 a t) :=
  decidable_of_iff (t = 0 ∨ 5 * a < 3 * t) (by
    unfold percentageLt60 approvalPercentage
    rcases Nat.eq_zero_or_pos t with h0 | hpos
    · subst h0; norm_num
    · have ht : (0:ℚ) < (t:ℚ) := by exact_mod_cast hpos
      rw [if_pos hpos, div_mul_eq_mul_div, div_lt_iff₀ ht]
      constructor
      · rintro (h | h)
        · omega
        · have hq : (5 : ℚ) * a < 3 * t := by exact_mod_cast h
          linarith
      · intro h
        right
        have : (100 : ℚ) * a < 60 * t := by linarith
        have hnat : 100 * a < 60 * t := by exact_mod_cast this
        omega)

/-- `_calculate_expense_status` (lines 206–280) as a pure function of the
expense's approvals, the full rule table and the expense's category. -/
def calculate_expense_status (approvals : List Approval) (rules : List ApprovalRule)
    (category_id : Nat) : ExpenseStatus :=
  if approvals.isEmpty then ExpenseStatus.pending
  else
    let active := activeRulesFor rules category_id
    let compulsory_approvals := compulsoryOf approvals active
    let necessary_approvals := necessaryOf approvals active
    match compulsoryGate compulsory_approvals with
    | some s => s
    | none =>
      if countStatus compulsory_approvals ApprovalStatus.approved < compulsory_approvals.length
      then ExpenseStatus.pending
      else if !necessary_approvals.isEmpty then
        if percentageLt60 (countStatus necessary_approvals ApprovalStatus.approved)
            necessary_approvals.length
        then ExpenseStatus.rejected
        else ExpenseStatus.approved
      else ExpenseStatus.approved

/-! ## Decision processing (`process_approval`) -/

/-- The slice of database state read and written by `process_approval`. -/
structure ProcState where
  approvals : List Approval
  expenses : List Expense
deriving DecidableEq, Repr

/-- `process_approval` (lines 119–204).  The load filtered by both id and
approver id is the `select` of lines 142–147; the two guard returns are
lines 149–153; on success the record's status, comments and decided-at
timestamp are set and the owning expense's status is recomputed with
`_calculate_expense_status` and written back.  A missing related expense
raises inside the handler and the session is rolled back, which leaves the
state unchanged and returns the exception message. -/
def process_approval (approval_id : Nat) (status : ApprovalStatus) (comments : Option String)
    (approver : User) (now : Int) (rules : List ApprovalRule) (st : ProcState) :
    (Bool × Option String) × ProcState :=
  match st.approvals.find? (fun a =>
      decide (a.id = approval_id) && decide (a.approver_id = approver.id)) with
  | none => ((false, some "Approval not found or access denied"), st)
  | some approval =>
    if ¬ approval.status = ApprovalStatus.pending then
      ((false, some "Approval has already been processed"), st)
    else
      match st.expenses.find? (fun e => decide (e.id = approval.expense_id)) with
      | none => ((false, some "approval.expense is None"), st)
      | some expense =>
        let updated : Approval :=
          { approval with status := status, comments := comments, approved_at := some now }
        let approvals1 := st.approvals.map (fun a => if a.id = approval.id then updated else a)
        let expenseApprovals := approvals1.filter (fun a => decide (a.expense_id = expense.id))
        let newStatus := calculate_expense_status expenseApprovals rules expense.category_id
        let expenses1 := st.expenses.map (fun e =>
          if e.id = expense.id then { e with status := newStatus } else e)
        ((true, none), { approvals := approvals1, expenses := expenses1 })

/-! ## The `PUT /approvals/{approval_id}` endpoint (`update_approval`) -/

/-- `ApprovalUpdate` schema (`schemas.py` lines 301–304).  `status` is a
required field; `comments` is optional, and `dict(exclude_unset=True)` drops
it when absent from the request body, hence the extra `Option` layer. -/
structure ApprovalUpdate where
  status : ApprovalStatus
  comments : Option (Option String)
deriving DecidableEq, Repr

/-- The `update_approval` endpoint (`api/approvals.py` lines 211–274): loads
the approval by id and current user, 404s when absent (`none`), then copies
every set field of the payload onto the record with `setattr` — including
`status`, with no check of the current status — and commits. -/
def update_approval (approval_id : Nat) (upd : ApprovalUpdate) (current_user : User)
    (approvals : List Approval) : Option (List Approval) :=
  match approvals.find? (fun a =>
      decide (a.id = approval_id) && decide (a.approver_id = current_user.id)) with
  | none => none
  | some approval =>
    let withStatus : Approval := { approval with status := upd.status }
    let updated : Approval :=
      match upd.comments with
      | some c => { withStatus with comments := c }
      | none => withStatus
    some (approvals.map (fun a => if a.id = approval.id then updated else a))

/-! ## Overdue sweep (`check_overdue_approvals`) -/

/-- The data of the escalation notification dispatched per overdue approval
(user, expense and the `days_overdue` metadata field). -/
structure OverdueNotification where
  user_id : Nat
  expense_id : Nat
  days_overdue : Int
deriving DecidableEq, Repr

/-- The state touched by the sweep: the approval store (read only) and the
notification store (appended to). -/
structure SweepState where
  approvals : List Approval
  notifications : List OverdueNotification
deriving DecidableEq, Repr

def secondsPerDay : Int := 86400

/-- `self.overdue_threshold_days = 3` from `ApprovalService.__init__`. -/
def overdue_threshold_days : Int := 3

/-- `check_overdue_approvals` (lines 389–437): select approvals with
status `pending` and `created_at < now - timedelta(days=threshold)`, send one
escalation notification per hit, return the selected approvals.  `timedelta
.days` is floor division of the elapsed seconds. -/
def check_overdue_approvals (threshold_days : Int) (now : Int) (st : SweepState) :
    List Approval × SweepState :=
  let cutoff := now - threshold_days * secondsPerDay
  let overdue := st.approvals.filter (fun a =>
    decide (a.status = ApprovalStatus.pending) && decide (a.created_at < cutoff))
  let notes := overdue.map (fun a =>
    { user_id := a.approver_id, expense_id := a.expense_id,
      days_overdue := (now - a.created_at).fdiv secondsPerDay : OverdueNotification })
  (overdue, { approvals := st.approvals, notifications := st.notifications ++ notes })

/-! ## Statistics (`get_approval_statistics`) -/

/-- The result dictionary of `get_approval_statistics`.  The source applies
`round(_ / 3600, 2)` to the SQL average of epoch seconds; the 2-decimal
presentation rounding of the float is abstracted away and the average is kept
as an exact rational number of hours. -/
structure ApprovalStats where
  total_processed : Nat
  pending : Nat
  approved : Nat
  rejected : Nat
  average_approval_time_hours : ℚ
deriving DecidableEq, Repr

/-- The optional creation-time window of lines 489–492:
`created_at >= start_date` and `created_at <= end_date` when given. -/
def inWindow (start_date end_date : Option Int) (t : Int) : Bool :=
  (match start_date with | some s => decide (s ≤ t) | none => true) &&
  (match end_date with | some e => decide (t ≤ e) | none => true)

/-- `get_approval_statistics` (lines 464–549).  The grouped-by-status count
query (lines 495–504) is scoped by approver and window; the pending count
query (lines 507–516) and the average-decision-time query (lines 519–531)
are scoped by approver only — they carry no date filter.  SQL `avg` over no
rows is `NULL`, mapped to `0` by `or 0`. -/
def get_approval_statistics (approver : User) (start_date end_date : Option Int)
    (approvals : List Approval) : ApprovalStats :=
  let windowed := approvals.filter (fun a =>
    decide (a.approver_id = approver.id) && inWindow start_date end_date a.created_at)
  let pendingAll := approvals.filter (fun a =>
    decide (a.approver_id = approver.id) && decide (a.status = ApprovalStatus.pending))
  let decidedAll := approvals.filter (fun a =>
    decide (a.approver_id = approver.id) && decide (¬ a.status = ApprovalStatus.pending) &&
      a.approved_at.isSome)
  let durations := decidedAll.filterMap (fun a =>
    a.approved_at.map (fun t => ((t - a.created_at : Int) : ℚ)))
  let avgSeconds : ℚ := if durations.length = 0 then 0 else durations.sum / durations.length
  { total_processed :=
      countStatus windowed ApprovalStatus.pending + countStatus windowed ApprovalStatus.approved +
        countStatus windowed ApprovalStatus.rejected
    pending := pendingAll.length
    approved := countStatus windowed ApprovalStatus.approved
    rejected := countStatus windowed ApprovalStatus.rejected
    average_approval_time_hours := avgSeconds / 3600 }

/-! ## Workflow creation (`create_approval_workflow`) -/

/-- The SQLAlchemy session restricted to `Approval` rows: `committed` survives
a rollback, `staged` holds `db.add`ed rows not yet committed. -/
structure DBState where
  committed : List Approval
  staged : List Approval
deriving DecidableEq, Repr

/-- `db.add(approval)`. -/
def dbAdd (s : DBState) (a : Approval) : DBState := { s with staged := s.staged ++ [a] }

/-- A successful `db.commit()`. -/
def dbCommitOk (s : DBState) : DBState := { committed := s.committed ++ s.staged, staged := [] }

/-- `db.rollback()`: discards staged rows only. -/
def dbRollback (s : DBState) : DBState := { s with staged := [] }

/-- Stable insertion step for sorting rules by `order_index`. -/
def insertByOrder (r : ApprovalRule) : List ApprovalRule → List ApprovalRule
  | [] => [r]
  | x :: xs =>
    if r.order_index ≤ x.order_index then r :: x :: xs else x :: insertByOrder r xs

/-- `.sort(key=lambda x: x.order_index)` / `ORDER BY order_index` (stable). -/
def sortByOrderIndex (l : List ApprovalRule) : List ApprovalRule :=
  l.foldr insertByOrder []

/-- `_get_approval_rules` (lines 439–457): active rules matching the
category and the company, ordered by `order_index`. -/
def get_approval_rules (allRules : List ApprovalRule) (category_id company_id : Nat) :
    List ApprovalRule :=
  sortByOrderIndex (allRules.filter (fun r =>
    decide (r.category_id = some category_id) && decide (r.company_id = company_id) &&
      r.is_active))

/-- `_get_user` (lines 459–462). -/
def get_user (users : List User) (uid : Nat) : Option User :=
  users.find? (fun u => decide (u.id = uid))

/-- The `Approval(...)` constructed per rule (lines 71–75).  The source id is
a fresh UUID and `created_at` a server default; they are modelled
deterministically from the rule, which no claim depends on. -/
def newApproval (e : Expense) (r : ApprovalRule) : Approval :=
  { id := r.id, expense_id := e.id, approver_id := r.user_id,
    status := ApprovalStatus.pending, comments := none, approved_at := none, created_at := 0 }

/-- The per-rule loop of `create_approval_workflow` (lines 61–93).  Each
iteration `db.add`s an approval and then `notification_service
.create_notification` commits the shared session (notification service line
71), so earlier approvals are already durable when a later iteration fails.
`failsAt k` says whether the `k`-th commit attempted during this call raises;
a raise aborts the loop carrying the session state at that moment. -/
def workflowLoop (e : Expense) (users : List User) (failsAt : Nat → Bool) :
    List ApprovalRule → DBState → Nat → List Approval →
      Except DBState (DBState × Nat × List Approval)
  | [], s, k, acc => Except.ok (s, k, acc)
  | r :: rest, s, k, acc =>
    if r.is_active = false then workflowLoop e users failsAt rest s k acc
    else
      match get_user users r.user_id with
      | none => workflowLoop e users failsAt rest s k acc
      | some u =>
        if u.is_active = false ∨ ¬ u.company_id = e.company_id then
          workflowLoop e users failsAt rest s k acc
        else
          let a := newApproval e r
          let s1 := dbAdd s a
          if failsAt k then Except.error s1
          else workflowLoop e users failsAt rest (dbCommitOk s1) (k + 1) (acc ++ [a])

/-- `create_approval_workflow` (lines 32–117): resolve the rules (empty ⇒
return `[]` untouched), run the loop, then the function's own `db.commit()`
(line 95) and the audit service's commit; any raise is caught by the
`except` handler which rolls back and returns `[]` (lines 114–117). -/
def create_approval_workflow (e : Expense) (allRules : List ApprovalRule) (users : List User)
    (failsAt : Nat → Bool) (s : DBState) : DBState × List Approval :=
  let approval_rules := get_approval_rules allRules e.category_id e.company_id
  if approval_rules.isEmpty then (s, [])
  else
    match workflowLoop e users failsAt approval_rules s 0 [] with
    | Except.error sFail => (dbRollback sFail, [])
    | Except.ok (s1, k, approvals) =>
      if failsAt k then (dbRollback s1, [])
      else
        let s2 := dbCommitOk s1
        if failsAt (k + 1) then (dbRollback s2, [])
        else (dbCommitOk s2, approvals)

/-! ## Concrete rows used by witnesses and counterexamples -/

/-- An active rule of company 1, category 1 for approver `uid`. -/
def sampleRule (i uid : Nat) (t : ApprovalType) : ApprovalRule :=
  { id := i, company_id := 1, category_id := some 1, user_id := uid,
    approval_type := t, order_index := (i : Int), is_active := true }

/-- An approval of expense 7 by approver `uid` with the given status. -/
def sampleApproval (i uid : Nat) (s : ApprovalStatus) : Approval :=
  { id := i, expense_id := 7, approver_id := uid, status := s,
    comments := none, approved_at := none, created_at := 0 }

/-- Rules for the quorum witness: one compulsory approver 0, five necessary
approvers 1–5, all on category 1. -/
def quorumRules : List ApprovalRule :=
  [sampleRule 0 0 ApprovalType.compulsory,
   sampleRule 1 1 ApprovalType.necessary, sampleRule 2 2 ApprovalType.necessary,
   sampleRule 3 3 ApprovalType.necessary, sampleRule 4 4 ApprovalType.necessary,
   sampleRule 5 5 ApprovalType.necessary]

/-- Approvals for the quorum witness: the compulsory one approved, then two
approved and three rejected necessary decisions (2/5 = 40% < 60%). -/
def quorumApprovals : List Approval :=
  [sampleApproval 10 0 ApprovalStatus.approved,
   sampleApproval 11 1 ApprovalStatus.approved, sampleApproval 12 2 ApprovalStatus.approved,
   sampleApproval 13 3 ApprovalStatus.rejected, sampleApproval 14 4 ApprovalStatus.rejected,
   sampleApproval 15 5 ApprovalStatus.rejected]

/-- Rules for the veto counterexample: two compulsory approvers. -/
def vetoRules : List ApprovalRule :=
  [sampleRule 0 0 ApprovalType.compulsory, sampleRule 1 1 ApprovalType.compulsory]

/-- Approvals for the veto counterexample: the compulsory approval examined
first is still pending, the second one is rejected. -/
def vetoApprovals : List Approval :=
  [sampleApproval 10 0 ApprovalStatus.pending, sampleApproval 11 1 ApprovalStatus.rejected]

/-- Approvals for the C3 scenario: compulsory approver 0 approved; necessary
approvers 1–3 approved, 4–5 still pending. -/
def partialApprovals : List Approval :=
  [sampleApproval 10 0 ApprovalStatus.approved,
   sampleApproval 11 1 ApprovalStatus.approved, sampleApproval 12 2 ApprovalStatus.approved,
   sampleApproval 13 3 ApprovalStatus.approved, sampleApproval 14 4 ApprovalStatus.pending,
   sampleApproval 15 5 ApprovalStatus.pending]

/-- The expense used by the workflow-creation scenarios. -/
def wfExpense : Expense :=
  { id := 7, company_id := 1, category_id := 1, user_id := 42, status := ExpenseStatus.pending }

/-- Two active approvers of company 1 for the workflow scenarios. -/
def wfUsers : List User :=
  [{ id := 0, company_id := 1, is_active := true },
   { id := 1, company_id := 1, is_active := true }]

/-- Two active rules of category 1 / company 1 for the workflow scenarios. -/
def wfRules : List ApprovalRule :=
  [sampleRule 0 0 ApprovalType.compulsory, sampleRule 1 1 ApprovalType.necessary]

/-- A failure schedule under which the second commit of the call (the
notification commit of the second loop iteration) raises. -/
def failSecondCommit : Nat → Bool := fun k => decide (k = 1)

/-- A failure schedule under which no commit raises. -/
def noFailure : Nat → Bool := fun _ => false

/-- The approval created for the first workflow rule. -/
def wfApproval0 : Approval := newApproval wfExpense (sampleRule 0 0 ApprovalType.compulsory)

/-- The approval created for the second workflow rule. -/
def wfApproval1 : Approval := newApproval wfExpense (sampleRule 1 1 ApprovalType.necessary)

/-- The session state at the moment the second commit raises: the first
approval already committed, the second still staged. -/
def wfFailState : DBState := { committed := [wfApproval0], staged := [wfApproval1] }

/-- The approver used by the decision-processing scenarios. -/
def procApprover : User := { id := 0, company_id := 1, is_active := true }

/-- The expense used by the decision-processing scenarios. -/
def procExpense : Expense :=
  { id := 7, company_id := 1, category_id := 1, user_id := 42, status := ExpenseStatus.pending }

/-- A pending approval of expense 7 assigned to approver 0. -/
def procApproval : Approval := sampleApproval 10 0 ApprovalStatus.pending

/-- The decision-processing state: one pending approval, its expense. -/
def procState : ProcState := { approvals := [procApproval], expenses := [procExpense] }

/-- A single compulsory rule for the decision-processing scenarios. -/
def procRules : List ApprovalRule := [sampleRule 0 0 ApprovalType.compulsory]

/-- An already-decided (approved) approval, for the `PUT` endpoint scenario. -/
def decidedApproval : Approval :=
  { id := 20, expense_id := 7, approver_id := 0, status := ApprovalStatus.approved,
    comments := some "ok", approved_at := some 100, created_at := 0 }

/-- A pending approval created at epoch 0 (4 days before `now = 4 days`). -/
def fourDayOld : Approval :=
  { id := 30, expense_id := 7, approver_id := 0, status := ApprovalStatus.pending,
    comments := none, approved_at := none, created_at := 0 }

/-- A pending approval created 2 days before `now = 4 days`. -/
def twoDayOld : Approval :=
  { id := 31, expense_id := 7, approver_id := 0, status := ApprovalStatus.pending,
    comments := none, approved_at := none, created_at := 2 * secondsPerDay }

/-- The approver used by the statistics scenario. -/
def statsApprover : User := { id := 1, company_id := 1, is_active := true }

/-- A pending approval of approver 1 created at time 0, outside the
statistics window `[100, 200]`. -/
def statsPendingOld : Approval :=
  { id := 40, expense_id := 7, approver_id := 1, status := ApprovalStatus.pending,
    comments := none, approved_at := none, created_at := 0 }

/-! ## Helper lemmas -/

/-- The compulsory loop falls through when every compulsory approval is
approved. -/
theorem compulsoryGate_eq_none (l : List Approval)
    (h : ∀ a ∈ l, a.status = ApprovalStatus.approved) : compulsoryGate l = none := by
  induction l with
  | nil => rfl
  | cons a rest ih =>
    have ha := h a (List.mem_cons_self a rest)
    simp only [compulsoryGate, ha]
    exact ih (fun b hb => h b (List.mem_cons_of_mem a hb))

/-- The compulsory loop stops with `rejected` at the first rejected approval
when everything before it is approved. -/
theorem compulsoryGate_rejected (l1 l2 : List Approval) (r : Approval)
    (h1 : ∀ a ∈ l1, a.status = ApprovalStatus.approved)
    (hr : r.status = ApprovalStatus.rejected) :
    compulsoryGate (l1 ++ r :: l2) = some ExpenseStatus.rejected := by
  induction l1 with
  | nil => simp [compulsoryGate, hr]
  | cons a rest ih =>
    have ha := h1 a (List.mem_cons_self a rest)
    simp only [List.cons_append, compulsoryGate, ha]
    exact ih (fun b hb => h1 b (List.mem_cons_of_mem a hb))

/-- Counting a status every member has gives the whole length. -/
theorem countStatus_eq_length (l : List Approval) (s : ApprovalStatus)
    (h : ∀ a ∈ l, a.status = s) : countStatus l s = l.length := by
  unfold countStatus
  rw [List.filter_eq_self.mpr]
  intro a ha
  simp [h a ha]

/-- A nonempty filtered list forces a nonempty source list. -/
theorem ne_nil_of_filter_ne_nil {α : Type} (p : α → Bool) (l : List α)
    (h : l.filter p ≠ []) : l ≠ [] := by
  intro hnil
  subst hnil
  exact h rfl

/-- After replacing (by id) the approval found by `find?` with an update
that still satisfies the search predicate, `find?` returns the update. -/
theorem find?_map_replace (l : List Approval) (a u : Approval) (p : Approval → Bool)
    (hfind : l.find? p = some a)
    (hpu : p u = true) :
    (l.map (fun x => if x.id = a.id then u else x)).find? p = some u := by
  induction l with
  | nil => simp at hfind
  | cons x xs ih =>
    by_cases hpx : p x = true
    · rw [List.find?_cons_of_pos _ hpx] at hfind
      have hxa : x = a := by injection hfind
      subst hxa
      rw [List.map_cons, if_pos rfl]
      exact List.find?_cons_of_pos _ hpu
    · have hpx' : ¬ p x := by simpa using hpx
      rw [List.find?_cons_of_neg _ hpx'] at hfind
      rw [List.map_cons]
      by_cases hxid : x.id = a.id
      · rw [if_pos hxid]
        exact List.find?_cons_of_pos _ hpu
      · rw [if_neg hxid]
        rw [List.find?_cons_of_neg _ hpx']
        exact ih hfind

/-- Every approval has exactly one of the three statuses, so the three
per-status counts add up to the length. -/
theorem count_three_statuses (l : List Approval) :
    countStatus l ApprovalStatus.pending + countStatus l ApprovalStatus.approved +
      countStatus l ApprovalStatus.rejected = l.length := by
  induction l with
  | nil => rfl
  | cons a xs ih =>
    unfold countStatus at ih ⊢
    cases h : a.status <;> simp [List.filter_cons, h] <;> omega

/-! ## C1 — the 60% necessary quorum -/

/-- C1: for every expense whose partitioned approval set has no rejected and
no pending compulsory approval and whose necessary group is non-empty,
`_calculate_expense_status` returns `rejected` exactly when
`approvedCount/totalCount*100 < 60` (the denominator counts every necessary
approval, pending included; the numerator only approved ones), and returns
`approved` otherwise. -/
theorem aggregate_sixty_percent_rule (approvals : List Approval) (rules : List ApprovalRule)
    (cid : Nat)
    (hcomp : ∀ a ∈ compulsoryOf approvals (activeRulesFor rules cid),
      a.status ≠ ApprovalStatus.rejected ∧ a.status ≠ ApprovalStatus.pending)
    (hnec : necessaryOf approvals (activeRulesFor rules cid) ≠ []) :
    (calculate_expense_status approvals rules cid = ExpenseStatus.rejected ↔
      percentageLt60
        (countStatus (necessaryOf approvals (activeRulesFor rules cid)) ApprovalStatus.approved)
        (necessaryOf approvals (activeRulesFor rules cid)).length) ∧
    (calculate_expense_status approvals rules cid = ExpenseStatus.approved ↔
      ¬ percentageLt60
        (countStatus (necessaryOf approvals (activeRulesFor rules cid)) ApprovalStatus.approved)
        (necessaryOf approvals (activeRulesFor rules cid)).length) := by
  have hcomp' : ∀ a ∈ compulsoryOf approvals (activeRulesFor rules cid),
      a.status = ApprovalStatus.approved := by
    intro a ha
    rcases hcomp a ha with ⟨hr, hp⟩
    cases h : a.status with
    | pending => exact absurd h hp
    | approved => rfl
    | rejected => exact absurd h hr
  have hne : approvals ≠ [] :=
    ne_nil_of_filter_ne_nil _ approvals hnec
  have hgate := compulsoryGate_eq_none _ hcomp'
  have hcount := countStatus_eq_length _ _ hcomp'
  unfold calculate_expense_status
  rw [if_neg (by simp [hne])]
  simp only [hgate, hcount, Nat.lt_irrefl, if_false]
  rw [if_pos (by simp [hnec])]
  by_cases hp : percentageLt60
      (countStatus (necessaryOf approvals (activeRulesFor rules cid)) ApprovalStatus.approved)
      (necessaryOf approvals (activeRulesFor rules cid)).length
  · rw [if_pos hp]
    exact ⟨by simp [hp], by simp [hp]⟩
  · rw [if_neg hp]
    exact ⟨by simp [hp], by simp [hp]⟩

/-- Witness for C1 at the spec's own rejection example: 2 approved of 5
necessary gives 40% and the aggregate is `rejected`. -/
theorem aggregate_sixty_percent_rule_witness :
    (∀ a ∈ compulsoryOf quorumApprovals (activeRulesFor quorumRules 1),
      a.status ≠ ApprovalStatus.rejected ∧ a.status ≠ ApprovalStatus.pending) ∧
    necessaryOf quorumApprovals (activeRulesFor quorumRules 1) ≠ [] ∧
    calculate_expense_status quorumApprovals quorumRules 1 = ExpenseStatus.rejected :=
  ⟨by decide, by decide,
    (aggregate_sixty_percent_rule quorumApprovals quorumRules 1 (by decide) (by decide)).1.mpr
      (by decide)⟩

/-! ## C2 — the compulsory veto -/

/-- C2 as stated is false: with a pending compulsory approval listed before
the rejected one, the single pass of lines 250–255 returns `pending` before
ever seeing the rejection, so the aggregate is not `rejected`. -/
theorem compulsory_veto_counterexample :
    (∃ a ∈ compulsoryOf vetoApprovals (activeRulesFor vetoRules 1),
      a.status = ApprovalStatus.rejected) ∧
    calculate_expense_status vetoApprovals vetoRules 1 = ExpenseStatus.pending ∧
    calculate_expense_status vetoApprovals vetoRules 1 ≠ ExpenseStatus.rejected := by
  refine ⟨⟨sampleApproval 11 1 ApprovalStatus.rejected, by decide, by decide⟩, by decide, by decide⟩

/-- C2 amended: if some compulsory approval is rejected and every compulsory
approval examined before the first rejected one is approved (in particular
not pending), the aggregate is `rejected`, regardless of every necessary
approval. -/
theorem aggregate_compulsory_veto (approvals : List Approval) (rules : List ApprovalRule)
    (cid : Nat) (l1 l2 : List Approval) (r : Approval)
    (hsplit : compulsoryOf approvals (activeRulesFor rules cid) = l1 ++ r :: l2)
    (h1 : ∀ a ∈ l1, a.status = ApprovalStatus.approved)
    (hr : r.status = ApprovalStatus.rejected) :
    calculate_expense_status approvals rules cid = ExpenseStatus.rejected := by
  have hne : approvals ≠ [] := by
    apply ne_nil_of_filter_ne_nil (matchesType (activeRulesFor rules cid) ApprovalType.compulsory)
    rw [show approvals.filter (matchesType (activeRulesFor rules cid) ApprovalType.compulsory) =
      compulsoryOf approvals (activeRulesFor rules cid) from rfl, hsplit]
    simp
  have hgate : compulsoryGate (compulsoryOf approvals (activeRulesFor rules cid)) =
      some ExpenseStatus.rejected := by
    rw [hsplit]
    exact compulsoryGate_rejected l1 l2 r h1 hr
  unfold calculate_expense_status
  rw [if_neg (by simp [hne])]
  simp only [hgate]

/-- Witness for the amended C2: an expense with one rejected compulsory
approval, one later pending compulsory approval and an otherwise fully
approved necessary group still aggregates to `rejected`. -/
theorem aggregate_compulsory_veto_witness :
    compulsoryOf
        [sampleApproval 10 0 ApprovalStatus.rejected, sampleApproval 11 1 ApprovalStatus.pending,
         sampleApproval 12 2 ApprovalStatus.approved]
        (activeRulesFor
          [sampleRule 0 0 ApprovalType.compulsory, sampleRule 1 1 ApprovalType.compulsory,
           sampleRule 2 2 ApprovalType.necessary] 1) =
      [] ++ sampleApproval 10 0 ApprovalStatus.rejected ::
        [sampleApproval 11 1 ApprovalStatus.pending] ∧
    calculate_expense_status
        [sampleApproval 10 0 ApprovalStatus.rejected, sampleApproval 11 1 ApprovalStatus.pending,
         sampleApproval 12 2 ApprovalStatus.approved]
        [sampleRule 0 0 ApprovalType.compulsory, sampleRule 1 1 ApprovalType.compulsory,
         sampleRule 2 2 ApprovalType.necessary] 1 = ExpenseStatus.rejected :=
  ⟨by decide,
    aggregate_compulsory_veto _ _ 1 []
      [sampleApproval 11 1 ApprovalStatus.pending]
      (sampleApproval 10 0 ApprovalStatus.rejected) (by decide) (by decide) (by decide)⟩

/-! ## C3 — the 3-approved / 2-pending partial state -/

/-- C3 as stated is false: in the concrete partial state the aggregate does
not return `pending`. -/
theorem partial_state_counterexample :
    calculate_expense_status partialApprovals quorumRules 1 ≠ ExpenseStatus.pending := by
  decide

/-- C3 amended: in the concrete partial state (one approved compulsory
approval, five necessary approvals of which 3 are approved and 2 pending),
the quorum percentage is exactly 60, the 60% gate does not trigger
rejection, and the aggregate returns `approved` (pending necessary approvals
do not block). -/
theorem partial_state_approved :
    approvalPercentage
        (countStatus (necessaryOf partialApprovals (activeRulesFor quorumRules 1))
          ApprovalStatus.approved)
        (necessaryOf partialApprovals (activeRulesFor quorumRules 1)).length = 60 ∧
    ¬ percentageLt60
        (countStatus (necessaryOf partialApprovals (activeRulesFor quorumRules 1))
          ApprovalStatus.approved)
        (necessaryOf partialApprovals (activeRulesFor quorumRules 1)).length ∧
    calculate_expense_status partialApprovals quorumRules 1 = ExpenseStatus.approved := by
  refine ⟨?_, by decide, by decide⟩
  have h3 : countStatus (necessaryOf partialApprovals (activeRulesFor quorumRules 1))
      ApprovalStatus.approved = 3 := by decide
  have h5 : (necessaryOf partialApprovals (activeRulesFor quorumRules 1)).length = 5 := by decide
  rw [h3, h5]
  unfold approvalPercentage
  norm_num

/-! ## C4 — no rules, no approvals: stay pending -/

/-- C4: when rule resolution yields no rules for the expense,
`create_approval_workflow` returns an empty approval list and leaves the
session untouched; and on an expense with zero `Approval` rows the
aggregation returns `pending` for every rule table — the expense is never
silently auto-approved. -/
theorem no_rules_stays_pending (e : Expense) (allRules : List ApprovalRule)
    (users : List User) (failsAt : Nat → Bool) (s : DBState)
    (h : get_approval_rules allRules e.category_id e.company_id = []) :
    create_approval_workflow e allRules users failsAt s = (s, []) ∧
    (∀ rules : List ApprovalRule, ∀ cid : Nat,
      calculate_expense_status [] rules cid = ExpenseStatus.pending) := by
  constructor
  · unfold create_approval_workflow
    rw [h]
    rfl
  · intro rules cid
    rfl

/-- Witness for C4: a rule table whose single rule is for another category
resolves to nothing, so the workflow is empty and the aggregate over zero
approvals is `pending`. -/
theorem no_rules_stays_pending_witness :
    get_approval_rules
      [{ id := 9, company_id := 1, category_id := some 2, user_id := 0,
         approval_type := ApprovalType.compulsory, order_index := 0, is_active := true }]
      wfExpense.category_id wfExpense.company_id = [] ∧
    create_approval_workflow wfExpense
      [{ id := 9, company_id := 1, category_id := some 2, user_id := 0,
         approval_type := ApprovalType.compulsory, order_index := 0, is_active := true }]
      wfUsers noFailure { committed := [], staged := [] } =
        ({ committed := [], staged := [] }, []) ∧
    calculate_expense_status [] wfRules 1 = ExpenseStatus.pending :=
  ⟨by decide,
    (no_rules_stays_pending wfExpense _ wfUsers noFailure _ (by decide)).1,
    (no_rules_stays_pending wfExpense
      [{ id := 9, company_id := 1, category_id := some 2, user_id := 0,
         approval_type := ApprovalType.compulsory, order_index := 0, is_active := true }]
      wfUsers noFailure { committed := [], staged := [] } (by decide)).2 wfRules 1⟩

/-! ## C7 — workflow creation is not atomic -/

/-- C7 as stated is false: with two eligible rules and a failure at the
second notification commit, the approval created in the first iteration is
already committed and survives the rollback — a partial workflow is
observable — while the call returns `[]`, the very value a successful run
with zero rules returns. -/
theorem workflow_atomicity_counterexample :
    (create_approval_workflow wfExpense wfRules wfUsers failSecondCommit
        { committed := [], staged := [] }).1.committed = [wfApproval0] ∧
    [wfApproval0] ≠ ([] : List Approval) ∧
    (create_approval_workflow wfExpense wfRules wfUsers failSecondCommit
        { committed := [], staged := [] }).2 =
      (create_approval_workflow wfExpense [] wfUsers noFailure
        { committed := [], staged := [] }).2 := by
  refine ⟨by decide, by decide, by decide⟩

/-- C7 amended: each approval is committed together with its notification
inside the loop, so when persistence fails partway only the staged row of
the failing iteration is rolled back; approvals committed by earlier
iterations remain observable, and the call returns `[]` — the same value as
a successful run with zero rules. -/
theorem workflow_failure_keeps_committed (e : Expense) (allRules : List ApprovalRule)
    (users : List User) (failsAt : Nat → Bool) (s : DBState) (sFail : DBState)
    (hne : (get_approval_rules allRules e.category_id e.company_id).isEmpty = false)
    (herr : workflowLoop e users failsAt
        (get_approval_rules allRules e.category_id e.company_id) s 0 [] =
      Except.error sFail) :
    create_approval_workflow e allRules users failsAt s =
      ({ committed := sFail.committed, staged := [] }, []) ∧
    create_approval_workflow e [] users failsAt s = (s, []) := by
  constructor
  · unfold create_approval_workflow
    simp only [hne, Bool.false_eq_true, if_false, herr]
    rfl
  · rfl

/-- Witness for the amended C7 at the two-rule scenario with the second
commit failing. -/
theorem workflow_failure_keeps_committed_witness :
    (get_approval_rules wfRules wfExpense.category_id wfExpense.company_id).isEmpty = false ∧
    workflowLoop wfExpense wfUsers failSecondCommit
        (get_approval_rules wfRules wfExpense.category_id wfExpense.company_id)
        { committed := [], staged := [] } 0 [] = Except.error wfFailState ∧
    create_approval_workflow wfExpense wfRules wfUsers failSecondCommit
        { committed := [], staged := [] } =
      ({ committed := [wfApproval0], staged := [] }, []) :=
  ⟨by decide, by rfl,
    (workflow_failure_keeps_committed wfExpense wfRules wfUsers failSecondCommit
      { committed := [], staged := [] } wfFailState (by decide) (by rfl)).1⟩

/-! ## C5 — decide is guarded against double submission -/

/-- C5: a first decision in {approved, rejected} by the rightful approver on
a pending approval succeeds; the same approver's second call fails with the
`AlreadyDecided` message, the stored status/comments/decided-at reflect only
the first call, and the failing call returns the state unchanged. -/
theorem decide_idempotent (st : ProcState) (rules : List ApprovalRule) (a : Approval)
    (e : Expense) (approver : User) (d d2 : ApprovalStatus) (c c2 : Option String)
    (t1 t2 : Int)
    (hfind : st.approvals.find? (fun x =>
        decide (x.id = a.id) && decide (x.approver_id = approver.id)) = some a)
    (hpend : a.status = ApprovalStatus.pending)
    (hd : ¬ d = ApprovalStatus.pending)
    (hexp : st.expenses.find? (fun x => decide (x.id = a.expense_id)) = some e) :
    ∃ st1 : ProcState,
      process_approval a.id d c approver t1 rules st = ((true, none), st1) ∧
      st1.approvals.find? (fun x =>
          decide (x.id = a.id) && decide (x.approver_id = approver.id)) =
        some { a with
          status := d, comments := c, approved_at := some t1 } ∧
      process_approval a.id d2 c2 approver t2 rules st1 =
        ((false, some "Approval has already been processed"), st1) := by
  have hpa := List.find?_some hfind
  have happ : a.approver_id = approver.id := by
    simp only [Bool.and_eq_true, decide_eq_true_eq] at hpa
    exact hpa.2
  have hpu : (fun x =>
      decide (x.id = a.id) && decide (x.approver_id = approver.id))
      { a with status := d, comments := c, approved_at := some t1 } = true := by
    simp [happ]
  refine ⟨⟨st.approvals.map (fun x => if x.id = a.id then
      { a with status := d, comments := c, approved_at := some t1 } else x),
    st.expenses.map (fun ex =>
      if ex.id = e.id then
        { ex with
          status := calculate_expense_status
            ((st.approvals.map (fun x => if x.id = a.id then
                { a with status := d, comments := c, approved_at := some t1 } else x)).filter
              (fun y => decide (y.expense_id = e.id))) rules e.category_id }
      else ex)⟩, ?_, ?_, ?_⟩
  · unfold process_approval
    rw [hfind]
    dsimp only
    rw [if_neg (not_not_intro hpend), hexp]
  · dsimp only
    exact find?_map_replace st.approvals a _ _ hfind hpu
  · unfold process_approval
    dsimp only
    rw [find?_map_replace st.approvals a _ _ hfind hpu]
    dsimp only
    rw [if_pos hd]

/-- Witness for C5: in the one-approval state, an `approved` decision at
time 5 succeeds, and a later `rejected` attempt at time 9 is refused and
changes nothing. -/
theorem decide_idempotent_witness :
    procApproval.status = ApprovalStatus.pending ∧
    (∃ st1 : ProcState,
      process_approval procApproval.id ApprovalStatus.approved none procApprover 5 procRules
          procState = ((true, none), st1) ∧
      st1.approvals.find? (fun x =>
          decide (x.id = procApproval.id) && decide (x.approver_id = procApprover.id)) =
        some { procApproval with
          status := ApprovalStatus.approved, comments := none, approved_at := some 5 } ∧
      process_approval procApproval.id ApprovalStatus.rejected none procApprover 9 procRules
          st1 = ((false, some "Approval has already been processed"), st1)) :=
  ⟨by decide,
    decide_idempotent procState procRules procApproval procExpense procApprover
      ApprovalStatus.approved ApprovalStatus.rejected none none 5 9
      (by decide) (by decide) (by decide) (by decide)⟩

/-! ## C10 — a pending decision value is accepted -/

/-- C10: `process_approval` never validates the decision against
{approved, rejected}: called with the decision value `pending` on a pending
approval by the rightful approver it returns success, stores status
`pending` and still sets the decided-at timestamp. -/
theorem decide_accepts_pending (st : ProcState) (rules : List ApprovalRule) (a : Approval)
    (e : Expense) (approver : User) (c : Option String) (t : Int)
    (hfind : st.approvals.find? (fun x =>
        decide (x.id = a.id) && decide (x.approver_id = approver.id)) = some a)
    (hpend : a.status = ApprovalStatus.pending)
    (hexp : st.expenses.find? (fun x => decide (x.id = a.expense_id)) = some e) :
    ∃ st1 : ProcState,
      process_approval a.id ApprovalStatus.pending c approver t rules st =
        ((true, none), st1) ∧
      st1.approvals.find? (fun x =>
          decide (x.id = a.id) && decide (x.approver_id = approver.id)) =
        some { a with
          status := ApprovalStatus.pending, comments := c, approved_at := some t } := by
  have hpa := List.find?_some hfind
  have happ : a.approver_id = approver.id := by
    simp only [Bool.and_eq_true, decide_eq_true_eq] at hpa
    exact hpa.2
  have hpu : (fun x =>
      decide (x.id = a.id) && decide (x.approver_id = approver.id))
      { a with status := ApprovalStatus.pending, comments := c, approved_at := some t } =
        true := by
    simp [happ]
  refine ⟨⟨st.approvals.map (fun x => if x.id = a.id then
      { a with status := ApprovalStatus.pending, comments := c, approved_at := some t }
      else x),
    st.expenses.map (fun ex =>
      if ex.id = e.id then
        { ex with
          status := calculate_expense_status
            ((st.approvals.map (fun x => if x.id = a.id then
                { a with
                  status := ApprovalStatus.pending, comments := c,
                  approved_at := some t } else x)).filter
              (fun y => decide (y.expense_id = e.id))) rules e.category_id }
      else ex)⟩, ?_, ?_⟩
  · unfold process_approval
    rw [hfind]
    dsimp only
    rw [if_neg (not_not_intro hpend), hexp]
  · dsimp only
    exact find?_map_replace st.approvals a _ _ hfind hpu

/-- Witness for C10: the pending decision value is accepted in the
one-approval state and the decided-at timestamp is set to 5. -/
theorem decide_accepts_pending_witness :
    procApproval.status = ApprovalStatus.pending ∧
    (∃ st1 : ProcState,
      process_approval procApproval.id ApprovalStatus.pending none procApprover 5 procRules
          procState = ((true, none), st1) ∧
      st1.approvals.find? (fun x =>
          decide (x.id = procApproval.id) && decide (x.approver_id = procApprover.id)) =
        some { procApproval with
          status := ApprovalStatus.pending, comments := none, approved_at := some 5 }) :=
  ⟨by decide,
    decide_accepts_pending procState procRules procApproval procExpense procApprover
      none 5 (by decide) (by decide) (by decide)⟩

/-! ## C6 — the `PUT` endpoint breaks the status-transition invariant -/

/-- C6 is a code bug: the `PUT /approvals/{id}` endpoint copies the payload
status onto the record with no transition guard, so a decided (approved)
approval can be moved back to `pending` or flipped to `rejected` by its
approver — contradicting the endpoint's own docstring ("only comments can be
updated after approval/rejection") and the spec invariant. -/
theorem update_approval_breaks_invariant :
    decidedApproval.status = ApprovalStatus.approved ∧
    update_approval 20 { status := ApprovalStatus.pending, comments := none } procApprover
        [decidedApproval] =
      some [{ decidedApproval with status := ApprovalStatus.pending }] ∧
    update_approval 20 { status := ApprovalStatus.rejected, comments := none } procApprover
        [decidedApproval] =
      some [{ decidedApproval with status := ApprovalStatus.rejected }] := by
  refine ⟨by decide, by decide, by decide⟩

/-! ## C8 — the overdue sweep -/

/-- C8: the sweep returns exactly the approvals that are pending and
strictly older than `now - thresholdDays`; it never mutates the approval
store, so an immediate second sweep returns the same approvals; concretely,
with threshold 3 a 4-day-old pending approval is returned and a 2-day-old
one is not. -/
theorem sweep_overdue_behaviour (threshold now : Int) (st : SweepState) (a : Approval) :
    (a ∈ (check_overdue_approvals threshold now st).1 ↔
      a ∈ st.approvals ∧ a.status = ApprovalStatus.pending ∧
        a.created_at < now - threshold * secondsPerDay) ∧
    (check_overdue_approvals threshold now st).2.approvals = st.approvals ∧
    (check_overdue_approvals threshold now
        (check_overdue_approvals threshold now st).2).1 =
      (check_overdue_approvals threshold now st).1 ∧
    fourDayOld ∈ (check_overdue_approvals overdue_threshold_days (4 * secondsPerDay)
        { approvals := [fourDayOld, twoDayOld], notifications := [] }).1 ∧
    twoDayOld ∉ (check_overdue_approvals overdue_threshold_days (4 * secondsPerDay)
        { approvals := [fourDayOld, twoDayOld], notifications := [] }).1 := by
  refine ⟨?_, rfl, rfl, by decide, by decide⟩
  unfold check_overdue_approvals
  simp [List.mem_filter, and_assoc]

/-! ## C9 — statistics scoping -/

/-- C9 as stated is false: the pending count is not scoped to the date
window — adding a pending approval created outside `[100, 200]` changes the
`pending` field from 0 to 1. -/
theorem stats_window_counterexample :
    inWindow (some 100) (some 200) statsPendingOld.created_at = false ∧
    (get_approval_statistics statsApprover (some 100) (some 200) []).pending = 0 ∧
    (get_approval_statistics statsApprover (some 100) (some 200)
        [statsPendingOld]).pending = 1 := by
  refine ⟨by decide, by decide, by decide⟩

/-- C9 amended: `total_processed`, `approved` and `rejected` are computed
over the approver's approvals created within the window, but `pending` and
`average_approval_time_hours` ignore the window entirely: `pending` counts
all of the approver's pending approvals, and the average is taken over all
of the approver's non-pending approvals with a decided-at timestamp, as
`decidedAt - createdAt`. -/
theorem stats_fields_scoping (approver : User) (s1 e1 s2 e2 : Option Int)
    (approvals : List Approval) :
    (get_approval_statistics approver s1 e1 approvals).pending =
      (get_approval_statistics approver s2 e2 approvals).pending ∧
    (get_approval_statistics approver s1 e1 approvals).average_approval_time_hours =
      (get_approval_statistics approver s2 e2 approvals).average_approval_time_hours ∧
    (get_approval_statistics approver s1 e1 approvals).pending =
      (approvals.filter (fun a => decide (a.approver_id = approver.id) &&
        decide (a.status = ApprovalStatus.pending))).length ∧
    (get_approval_statistics approver s1 e1 approvals).total_processed =
      (approvals.filter (fun a => decide (a.approver_id = approver.id) &&
        inWindow s1 e1 a.created_at)).length ∧
    (get_approval_statistics approver s1 e1 approvals).approved =
      countStatus (approvals.filter (fun a => decide (a.approver_id = approver.id) &&
        inWindow s1 e1 a.created_at)) ApprovalStatus.approved ∧
    (get_approval_statistics approver s1 e1 approvals).rejected =
      countStatus (approvals.filter (fun a => decide (a.approver_id = approver.id) &&
        inWindow s1 e1 a.created_at)) ApprovalStatus.rejected := by
  refine ⟨rfl, rfl, rfl, ?_, rfl, rfl⟩
  exact count_three_statuses _

end ExpenseApproval
